import Mathlib

/-! # A shallow embedding of `example.c`

`example.c` opens an X11 window through xcb, draws on it with cairo and
redraws it eleven times, one second apart.  The program has no input of its
own: everything that can vary is what the X server answers during
`setup_xcb`.  Those answers are collected in `XServer`; the program is then
a function from an `XServer` to the sequence of library calls it makes
(`Run.trace`) and the way it ends (`Run.exit`).

The cairo calls are given a meaning in the second half of the file, at one
observed pixel: the compositing operator, the current source, the stack of
groups, and the alpha value the pixel has on every surface.
-/

namespace CairoXcbAlpha

/-! ## Constants -/

/-- Starting location of the window (`const int x = 200`). -/
def x : Int := 200
/-- Starting location of the window (`const int y = 200`). -/
def y : Int := 200
/-- Width of the window (`const int w = 200`). -/
def w : Int := 200
/-- Height of the window (`const int h = 200`). -/
def h : Int := 200

/-! Values of the names taken from `<xcb/xproto.h>` and `<xcb/xcb.h>`. -/

def XCB_NONE : Nat := 0
def XCB_COPY_FROM_PARENT : Nat := 0
def XCB_EVENT_MASK_BUTTON_PRESS : Nat := 4
def XCB_EVENT_MASK_EXPOSURE : Nat := 32768
def XCB_WINDOW_CLASS_INPUT_OUTPUT : Nat := 1
def XCB_CW_BACK_PIXMAP : Nat := 1
def XCB_CW_OVERRIDE_REDIRECT : Nat := 512
def XCB_CW_EVENT_MASK : Nat := 2048
def XCB_PROP_MODE_REPLACE : Nat := 0
def XCB_PROP_MODE_APPEND : Nat := 2
def XCB_ATOM_ATOM : Nat := 4
def XCB_ATOM_CARDINAL : Nat := 6

/-! ## Library calls -/

/-- The two compositing operators the program selects. -/
inductive cairo_operator_t where
  | CAIRO_OPERATOR_SOURCE
  | CAIRO_OPERATOR_OVER
  deriving DecidableEq, Repr

open cairo_operator_t

/-- The two file-name buffers of `main`. -/
inductive Buffer where
  | file1
  | file2
  deriving DecidableEq, Repr

/-- One call into libc, xcb or cairo, with the arguments that the program
chooses.  Handles (`xcon`, `cairo`, `surface`) are global and unique, so they
are left out.  The iterators of `get_xscreen` and `get_xvisual` only read the
setup data of the connection and are not recorded. -/
inductive Call where
  | xcb_connect
  | xcb_connection_has_error
  | xcb_disconnect
  | errx (status : Int) (msg : String)
  | xcb_generate_id
  | xcb_create_window (depth wid parent : Nat) (x y width height border_width : Int)
      (cls visual value_mask : Nat) (value_list : List Nat)
  | xcb_get_geometry (drawable : Nat)
  | xcb_get_geometry_reply
  | printf_depth (depth : Nat)
  | free
  | xcb_intern_atom (only_if_exists len : Nat) (name : String)
  | xcb_intern_atom_reply (i : Nat)
  | xcb_change_property (mode window property type format len : Nat) (data : List Int)
  | xcb_change_window_attributes (window value_mask : Nat) (value_list : List Nat)
  | cairo_xcb_surface_create (drawable visual : Nat) (width height : Int)
  | cairo_create
  | xcb_map_window (window : Nat)
  | xcb_flush
  | cairo_set_source_rgba (r g b a : ℚ)
  | cairo_paint
  | cairo_push_group
  | snprintf (buf : Buffer) (size : Nat) (fmt : String) (i : Int)
  | cairo_get_target
  | cairo_surface_write_to_png (filename : Buffer)
  | cairo_set_operator (op : cairo_operator_t)
  | cairo_rectangle (x y width height : ℚ)
  | cairo_fill
  | cairo_pop_group_to_source
  | sleep (seconds : Nat)
  | cairo_surface_destroy
  | cairo_destroy
  deriving DecidableEq

/-- How the process ends: `return` from `main`, `errx`, or the dereference of a
null pointer. -/
inductive Exit where
  | returned (status : Int)
  | exited (status : Int)
  | null_dereference
  deriving DecidableEq, Repr

/-- A complete execution: the calls made, in order, and the way it ended. -/
structure Run where
  trace : List Call
  exit : Exit

/-- An execution of a function that may end the process instead of
returning. -/
structure Partial (α : Type) where
  trace : List Call
  result : Except Exit α

/-! ## What the X server answers -/

structure xcb_visualtype_t where
  visual_id : Nat
  deriving DecidableEq, Repr

structure xcb_depth_t where
  depth : Nat
  visuals : List xcb_visualtype_t
  deriving DecidableEq, Repr

structure xcb_screen_t where
  root : Nat
  root_visual : Nat
  allowed_depths : List xcb_depth_t
  deriving DecidableEq, Repr

structure xcb_get_geometry_reply_t where
  depth : Nat
  deriving DecidableEq, Repr

/-- Everything the program reads from the X server during setup. -/
structure XServer where
  /-- the value of `xcb_connection_has_error(xcon)` -/
  has_error : Int
  /-- the screen number stored by `xcb_connect` -/
  default_screen : Int
  /-- the screens of `xcb_get_setup(c)` -/
  roots : List xcb_screen_t
  /-- the value of `xcb_generate_id(xcon)` -/
  new_id : Nat
  /-- the answer of `xcb_get_geometry_reply`, `none` for `NULL` -/
  geometry : Option xcb_get_geometry_reply_t
  /-- the atom in the answer of the `i`-th `xcb_intern_atom_reply`, `none` for `NULL` -/
  atom_reply : Nat → Option Nat

/-- The globals that `setup_xcb` leaves for `main`. -/
structure Globals where
  xscreen : xcb_screen_t
  xwindow : Nat
  xvisual : xcb_visualtype_t
  deriving DecidableEq, Repr

/-! ## XCB setup -/

/-- The loop of `get_xscreen`: walk the screens, counting `screen` down, and
return the one reached when the count is `0`. -/
def get_xscreen : List xcb_screen_t → Int → Option xcb_screen_t
  | [], _ => none
  | s :: rest, screen => if 0 = screen then some s else get_xscreen rest (screen - 1)

/-- The inner loop of `get_xvisual`, over the visuals of one depth. -/
def get_xvisual_visuals (root_visual : Nat) : List xcb_visualtype_t → Option xcb_visualtype_t
  | [] => none
  | v :: rest => if root_visual = v.visual_id then some v else get_xvisual_visuals root_visual rest

/-- The outer loop of `get_xvisual`, over the allowed depths. -/
def get_xvisual_depths (root_visual : Nat) : List xcb_depth_t → Option xcb_visualtype_t
  | [] => none
  | d :: rest =>
    match get_xvisual_visuals root_visual d.visuals with
    | some v => some v
    | none => get_xvisual_depths root_visual rest

def get_xvisual (screen : xcb_screen_t) : Option xcb_visualtype_t :=
  get_xvisual_depths screen.root_visual screen.allowed_depths

/-- The names interned by `wm_hints`. -/
def atoms : List String :=
  [ "_NET_WM_XINFO_TYPE",
    "_NET_WM_XINFO_TYPE_DOCK",
    "_NET_WM_DESKTOP",
    "_NET_WM_STRUT_PARTIAL",
    "_NET_WM_STRUT",
    "_NET_WM_STATE",
    "_NET_WM_STATE_STICKY",
    "_NET_WM_STATE_ABOVE" ]

def NET_WM_XINFO_TYPE : Nat := 0
def NET_WM_XINFO_TYPE_DOCK : Nat := 1
def NET_WM_DESKTOP : Nat := 2
def NET_WM_STRUT_PARTIAL : Nat := 3
def NET_WM_STRUT : Nat := 4
def NET_WM_STATE : Nat := 5
def NET_WM_STATE_STICKY : Nat := 6
def NET_WM_STATE_ABOVE : Nat := 7

/-- The first loop of `wm_hints`: one `xcb_intern_atom` request per name. -/
def wm_hints_requests : List String → List Call
  | [] => []
  | name :: rest => Call.xcb_intern_atom 0 name.length name :: wm_hints_requests rest

/-- The second loop of `wm_hints`, from index `i` on, `names` being
`atoms[i..]` and `xatoms` the atoms stored so far: a missing reply ends the
program through `errx`. -/
def wm_hints_replies (srv : XServer) : List String → Nat → List Nat → Partial (List Nat)
  | [], _, xatoms => ⟨[], .ok xatoms⟩
  | name :: rest, i, xatoms =>
    match srv.atom_reply i with
    | none =>
      ⟨[Call.xcb_intern_atom_reply i,
        Call.errx 1 ("wm_hints: xcb atom reply failed for " ++ name)],
       .error (Exit.exited 1)⟩
    | some atom =>
      let later := wm_hints_replies srv rest (i + 1) (xatoms ++ [atom])
      ⟨Call.xcb_intern_atom_reply i :: Call.free :: later.trace, later.result⟩

/-- The `struts` array of `wm_hints`: all `0` but `top`, `top_start_x` and
`top_end_x` (indices 2, 8 and 9). -/
def struts : List Int :=
  [0, 0, y + h, 0, 0, 0, 0, 0, x, x + w, 0, 0]

/-- The property changes at the end of `wm_hints`. -/
def wm_hints_properties (xwindow : Nat) (xatoms : List Nat) : List Call :=
  [ Call.xcb_change_property XCB_PROP_MODE_REPLACE xwindow
      (xatoms.getD NET_WM_XINFO_TYPE 0) XCB_ATOM_ATOM 32 1
      [(xatoms.getD NET_WM_XINFO_TYPE_DOCK 0 : Nat)],
    Call.xcb_change_property XCB_PROP_MODE_APPEND xwindow
      (xatoms.getD NET_WM_STATE 0) XCB_ATOM_ATOM 32 2
      [(xatoms.getD NET_WM_STATE_STICKY 0 : Nat), (xatoms.getD NET_WM_STATE_ABOVE 0 : Nat)],
    Call.xcb_change_property XCB_PROP_MODE_REPLACE xwindow
      (xatoms.getD NET_WM_DESKTOP 0) XCB_ATOM_CARDINAL 32 1
      [(-1 : Int) % 2 ^ 32],
    Call.xcb_change_property XCB_PROP_MODE_REPLACE xwindow
      (xatoms.getD NET_WM_STRUT_PARTIAL 0) XCB_ATOM_CARDINAL 32 12 struts,
    Call.xcb_change_property XCB_PROP_MODE_REPLACE xwindow
      (xatoms.getD NET_WM_STRUT 0) XCB_ATOM_CARDINAL 32 4 struts,
    Call.xcb_change_window_attributes xwindow XCB_CW_OVERRIDE_REDIRECT [1] ]

def wm_hints (srv : XServer) (xwindow : Nat) : Partial Unit :=
  let replies := wm_hints_replies srv atoms 0 []
  match replies.result with
  | .error e => ⟨wm_hints_requests atoms ++ replies.trace, .error e⟩
  | .ok xatoms =>
    ⟨wm_hints_requests atoms ++ replies.trace ++ wm_hints_properties xwindow xatoms, .ok ()⟩

/-- The `xcb_create_window` call of `setup_xcb`, argument by argument as the
source passes them: `x, y, y, h, 1`. -/
def create_window_call (xscreen : xcb_screen_t) (xwindow : Nat) : Call :=
  Call.xcb_create_window
    XCB_COPY_FROM_PARENT
    xwindow
    xscreen.root
    x y
    y h
    1
    XCB_WINDOW_CLASS_INPUT_OUTPUT
    xscreen.root_visual
    (XCB_CW_EVENT_MASK ||| XCB_CW_BACK_PIXMAP)
    [XCB_NONE, XCB_EVENT_MASK_EXPOSURE ||| XCB_EVENT_MASK_BUTTON_PRESS]

def setup_xcb (srv : XServer) : Partial Globals :=
  if srv.has_error ≠ 0 then
    ⟨[Call.xcb_connect, Call.xcb_connection_has_error, Call.xcb_disconnect,
      Call.errx 1 "Failed to establish connection to X"],
     .error (Exit.exited 1)⟩
  else
    match get_xscreen srv.roots srv.default_screen with
    | none =>
      ⟨[Call.xcb_connect, Call.xcb_connection_has_error,
        Call.errx 1 "Failed to retrieve X screen"],
       .error (Exit.exited 1)⟩
    | some xscreen =>
      match get_xvisual xscreen with
      | none =>
        ⟨[Call.xcb_connect, Call.xcb_connection_has_error,
          Call.errx 1 "Failed to retrieve X visual context"],
         .error (Exit.exited 1)⟩
      | some xvisual =>
        let xwindow := srv.new_id
        let requests : List Call :=
          [Call.xcb_connect, Call.xcb_connection_has_error, Call.xcb_generate_id,
           create_window_call xscreen xwindow,
           Call.xcb_get_geometry xwindow, Call.xcb_get_geometry_reply]
        match srv.geometry with
        | none =>
          -- the source reads `geo->depth` without a test of `geo`
          ⟨requests, .error Exit.null_dereference⟩
        | some geo =>
          let hints := wm_hints srv xwindow
          ⟨requests ++ [Call.printf_depth geo.depth, Call.free] ++ hints.trace,
           match hints.result with
           | .error e => .error e
           | .ok _ => .ok ⟨xscreen, xwindow, xvisual⟩⟩

/-! ## The cairo part of `main` -/

def cairo_clear_background : List Call :=
  [Call.cairo_set_source_rgba 0.8 0 0 0.1, Call.cairo_paint]

/-- START: create new group/buffer, set its background (with the two dumps of
the target to a PNG file). -/
def group_start (i : Nat) : List Call :=
  [ Call.cairo_push_group,
    Call.xcb_flush,
    Call.snprintf Buffer.file1 100 "cimg_%02d_before.png" i,
    Call.cairo_get_target,
    Call.cairo_surface_write_to_png Buffer.file1,
    Call.cairo_set_operator CAIRO_OPERATOR_SOURCE,
    Call.cairo_set_source_rgba 0.8 0 0 0.1,
    Call.cairo_paint,
    Call.cairo_set_operator CAIRO_OPERATOR_OVER,
    Call.xcb_flush,
    Call.snprintf Buffer.file2 100 "cimg_%02d_later.png" i,
    Call.cairo_get_target,
    Call.cairo_surface_write_to_png Buffer.file2 ]

/-- The drawing proper ("now do all my drawing..."): the square of iteration `i`. -/
def drawing (i : Nat) : List Call :=
  [ Call.cairo_set_source_rgba 0 1 0 0.5,
    Call.cairo_rectangle (((i : Int) * 10 + 10 : Int) : ℚ) (((i : Int) * 10 + 10 : Int) : ℚ) 50 50,
    Call.cairo_fill ]

/-- END: pop group/buffer (exposing it) and render. -/
def group_end : List Call :=
  [ Call.cairo_pop_group_to_source,
    Call.cairo_paint,
    Call.xcb_flush,
    Call.sleep 1 ]

/-- The body of the draw loop of `main`, for the loop counter `i`. -/
def loop_body (i : Nat) : List Call :=
  group_start i ++ drawing i ++ group_end

/-- The draw loop `for (...; i < 11; i++)`, entered with the counter at `i`. -/
def draw_loop (i : Nat) : List Call :=
  if i < 11 then loop_body i ++ draw_loop (i + 1) else []
termination_by 11 - i

/-- The calls of `main` after a successful `setup_xcb`, up to the loop. -/
def first_draw (g : Globals) : List Call :=
  [ Call.cairo_xcb_surface_create g.xwindow g.xvisual.visual_id w h,
    Call.cairo_create,
    Call.xcb_map_window g.xwindow ] ++
  cairo_clear_background ++
  [ Call.xcb_flush ]

/-- The calls of `main` after the loop. -/
def cleanup : List Call :=
  [ Call.cairo_surface_destroy, Call.cairo_destroy, Call.xcb_disconnect ]

def main (srv : XServer) : Run :=
  let setup := setup_xcb srv
  match setup.result with
  | .error e => ⟨setup.trace, e⟩
  | .ok g => ⟨setup.trace ++ first_draw g ++ draw_loop 0 ++ cleanup, Exit.returned 0⟩

/-! ## The meaning of the cairo calls at one pixel

The state of the cairo context is followed at one observed pixel of the
window.  `cairo_paint` and `cairo_fill` combine the current source with the
current target (the topmost group, or the window when there is none) by the
current operator; only the alpha channel of the surfaces is kept.  The
operators act on exact rationals: `CAIRO_OPERATOR_SOURCE` replaces,
`CAIRO_OPERATOR_OVER` is Porter-Duff "over". -/

/-- A pixel of the window: the unit square with corner `(px, py)`. -/
structure Pixel where
  px : Int
  py : Int
  deriving DecidableEq, Repr

/-- A rectangle added to the current path by `cairo_rectangle`. -/
structure Rectangle where
  x : ℚ
  y : ℚ
  width : ℚ
  height : ℚ
  deriving DecidableEq

/-- The pixel lies inside the rectangle. (The rectangles of this program have
integer corners, so a pixel is either inside or not touched at all.) -/
def Rectangle.covers (r : Rectangle) (p : Pixel) : Bool :=
  decide (r.x ≤ p.px ∧ (p.px : ℚ) + 1 ≤ r.x + r.width ∧
          r.y ≤ p.py ∧ (p.py : ℚ) + 1 ≤ r.y + r.height)

/-- The current source: a solid colour, or a group popped by
`cairo_pop_group_to_source`, of which the alpha at the observed pixel is
kept. -/
inductive Source where
  | rgba (r g b a : ℚ)
  | group (alpha : ℚ)
  deriving DecidableEq

/-- Alpha of the source at the observed pixel. -/
def Source.alpha : Source → ℚ
  | Source.rgba _ _ _ a => a
  | Source.group alpha => alpha

/-- An intermediate group opened by `cairo_push_group`: the graphics state
saved at the push, and the alpha of the group surface at the observed
pixel. -/
structure Group where
  saved_op : cairo_operator_t
  saved_source : Source
  alpha : ℚ
  deriving DecidableEq

/-- State of the cairo context, and alpha of the window, at the observed
pixel. -/
structure Context where
  op : cairo_operator_t
  source : Source
  path : List Rectangle
  groups : List Group
  window : ℚ
  deriving DecidableEq

/-- Depth of the group stack. -/
def Context.depth (c : Context) : Nat := c.groups.length

/-- State given by `cairo_create`: operator OVER, opaque black source, empty
path, no group. -/
def cairo_create_context (window : ℚ) : Context :=
  ⟨CAIRO_OPERATOR_OVER, Source.rgba 0 0 0 1, [], [], window⟩

/-- Alpha left by drawing a source of alpha `src` on a destination of alpha
`dst`. -/
def blend : cairo_operator_t → ℚ → ℚ → ℚ
  | CAIRO_OPERATOR_SOURCE, src, _ => src
  | CAIRO_OPERATOR_OVER, src, dst => src + dst * (1 - src)

/-- Draw the current source on the current target at the observed pixel. -/
def Context.render (c : Context) : Context :=
  match c.groups with
  | [] => { c with window := blend c.op c.source.alpha c.window }
  | g :: gs => { c with groups := { g with alpha := blend c.op c.source.alpha g.alpha } :: gs }

/-- Effect of one call on the context; `none` when a group is popped that was
never pushed. Calls that are not drawing calls leave the context alone. -/
def step (p : Pixel) (c : Context) : Call → Option Context
  | Call.cairo_create => some (cairo_create_context c.window)
  | Call.cairo_set_operator op => some { c with op := op }
  | Call.cairo_set_source_rgba r g b a => some { c with source := Source.rgba r g b a }
  | Call.cairo_rectangle rx ry rw rh => some { c with path := c.path ++ [⟨rx, ry, rw, rh⟩] }
  | Call.cairo_paint => some c.render
  | Call.cairo_fill =>
    if c.path.any (fun r => r.covers p) then some { c.render with path := [] }
    else some { c with path := [] }
  | Call.cairo_push_group =>
    some { c with groups := ⟨c.op, c.source, 0⟩ :: c.groups }
  | Call.cairo_pop_group_to_source =>
    match c.groups with
    | [] => none
    | g :: gs => some { c with op := g.saved_op, source := Source.group g.alpha, groups := gs }
  | _ => some c

/-- Run a sequence of calls. -/
def run (p : Pixel) : Context → List Call → Option Context
  | c, [] => some c
  | c, k :: ks =>
    match step p c k with
    | none => none
    | some c1 => run p c1 ks

/-- Every call of a sequence, paired with the context it is made in. -/
def annotate (p : Pixel) : Context → List Call → List (Context × Call)
  | _, [] => []
  | c, k :: ks =>
    (c, k) :: (match step p c k with
               | none => []
               | some c1 => annotate p c1 ks)

/-- The calls that put colour on a surface. -/
def Call.renders : Call → Bool
  | Call.cairo_paint => true
  | Call.cairo_fill => true
  | _ => false

/-- Every call of a sequence with the operator and the group depth in force
when it is made. -/
def profile (p : Pixel) (c : Context) (ks : List Call) : List (Call × cairo_operator_t × Nat) :=
  (annotate p c ks).map (fun ck => (ck.2, ck.1.op, ck.1.depth))

/-- The rendering calls of a sequence, each with the operator and the group
depth in force. -/
def render_operators (p : Pixel) (c : Context) (ks : List Call) :
    List (Call × cairo_operator_t × Nat) :=
  ((annotate p c ks).filter (fun ck => ck.2.renders)).map
    (fun ck => (ck.2, ck.1.op, ck.1.depth))

/-- The rendering calls of a sequence, each with the source in force. -/
def render_sources (p : Pixel) (c : Context) (ks : List Call) : List (Call × Source) :=
  ((annotate p c ks).filter (fun ck => ck.2.renders)).map (fun ck => (ck.2, ck.1.source))

/-- Alpha of the window at the observed pixel after `main` has run up to the
loop and through `n` iterations of it, from a window of alpha `initial`. -/
def window_alpha (p : Pixel) (g : Globals) (initial : ℚ) (n : Nat) : Option ℚ :=
  (run p (cairo_create_context initial)
    (first_draw g ++ (List.range n).flatMap loop_body)).map (fun c => c.window)

/-! ## Observations on traces -/

/-- The calls that `setup_xcb` and `wm_hints` make. -/
def Call.is_setup : Call → Bool
  | Call.xcb_connect => true
  | Call.xcb_connection_has_error => true
  | Call.xcb_disconnect => true
  | Call.errx _ _ => true
  | Call.xcb_generate_id => true
  | Call.xcb_create_window _ _ _ _ _ _ _ _ _ _ _ _ => true
  | Call.xcb_get_geometry _ => true
  | Call.xcb_get_geometry_reply => true
  | Call.printf_depth _ => true
  | Call.free => true
  | Call.xcb_intern_atom _ _ _ => true
  | Call.xcb_intern_atom_reply _ => true
  | Call.xcb_change_property _ _ _ _ _ _ _ => true
  | Call.xcb_change_window_attributes _ _ _ => true
  | _ => false

/-- The calls into cairo. -/
def Call.is_cairo : Call → Bool
  | Call.cairo_xcb_surface_create _ _ _ _ => true
  | Call.cairo_create => true
  | Call.cairo_set_source_rgba _ _ _ _ => true
  | Call.cairo_paint => true
  | Call.cairo_push_group => true
  | Call.cairo_get_target => true
  | Call.cairo_surface_write_to_png _ => true
  | Call.cairo_set_operator _ => true
  | Call.cairo_rectangle _ _ _ _ => true
  | Call.cairo_fill => true
  | Call.cairo_pop_group_to_source => true
  | Call.cairo_surface_destroy => true
  | Call.cairo_destroy => true
  | _ => false

def Call.is_errx : Call → Bool
  | Call.errx _ _ => true
  | _ => false

def Call.is_sleep : Call → Bool
  | Call.sleep _ => true
  | _ => false

def Call.is_flush : Call → Bool
  | Call.xcb_flush => true
  | _ => false

def Call.is_write_to_png : Call → Bool
  | Call.cairo_surface_write_to_png _ => true
  | _ => false

def Call.is_disconnect : Call → Bool
  | Call.xcb_disconnect => true
  | _ => false

def Call.is_fill : Call → Bool
  | Call.cairo_fill => true
  | _ => false

/-- Position, size and border width of every window a trace creates. -/
def created_windows : List Call → List (Int × Int × Int × Int × Int)
  | [] => []
  | Call.xcb_create_window _ _ _ wx wy width height border _ _ _ _ :: ks =>
    (wx, wy, width, height, border) :: created_windows ks
  | _ :: ks => created_windows ks

/-- Size of every cairo surface a trace creates. -/
def created_surfaces : List Call → List (Int × Int)
  | [] => []
  | Call.cairo_xcb_surface_create _ _ width height :: ks => (width, height) :: created_surfaces ks
  | _ :: ks => created_surfaces ks

/-- Colour of every `cairo_set_source_rgba` call of a trace. -/
def source_colours : List Call → List (ℚ × ℚ × ℚ × ℚ)
  | [] => []
  | Call.cairo_set_source_rgba r g b a :: ks => (r, g, b, a) :: source_colours ks
  | _ :: ks => source_colours ks

/-- The calls of a trace that come after its first `xcb_disconnect`. -/
def after_disconnect : List Call → List Call
  | [] => []
  | Call.xcb_disconnect :: ks => ks
  | _ :: ks => after_disconnect ks

/-- The path in force at every `cairo_fill` of a sequence. -/
def filled (p : Pixel) (c : Context) (ks : List Call) : List (List Rectangle) :=
  ((annotate p c ks).filter (fun ck => ck.2.is_fill)).map (fun ck => ck.1.path)

/-- The calls that `wm_hints` makes. -/
def Call.is_hint : Call → Bool
  | Call.errx _ _ => true
  | Call.free => true
  | Call.xcb_intern_atom _ _ _ => true
  | Call.xcb_intern_atom_reply _ => true
  | Call.xcb_change_property _ _ _ _ _ _ _ => true
  | Call.xcb_change_window_attributes _ _ _ => true
  | _ => false

/-- Alpha of the group of iteration `i` at the observed pixel when it is
popped: the background, with the square over it where the square is. -/
def group_alpha (p : Pixel) (i : Nat) : ℚ :=
  if (⟨i * 10 + 10, i * 10 + 10, 50, 50⟩ : Rectangle).covers p = true
  then 0.5 + 0.1 * (1 - 0.5) else 0.1

/-! ## Sample servers -/

/-- A server with one screen whose root visual is among the allowed ones, and
which answers every request. -/
def server_ok : XServer where
  has_error := 0
  default_screen := 0
  roots := [⟨300, 33, [⟨24, [⟨32⟩, ⟨33⟩]⟩]⟩]
  new_id := 4194305
  geometry := some ⟨24⟩
  atom_reply := fun i => some (400 + i)

/-- The globals `setup_xcb` leaves on `server_ok`. -/
def globals_ok : Globals :=
  ⟨⟨300, 33, [⟨24, [⟨32⟩, ⟨33⟩]⟩]⟩, 4194305, ⟨33⟩⟩

/-- As `server_ok`, but the geometry request gets no reply. -/
def server_without_geometry : XServer :=
  { server_ok with geometry := none }

/-- As `server_ok`, but the connection is in error. -/
def server_in_error : XServer :=
  { server_ok with has_error := 1 }

/-! ## The loop body as a list of steps -/

/-- The body of the loop as the specification lists it, and not as the source
has it: "push_group, paint the background, fill the square,
pop_group_to_source, paint, xcb_flush, sleep(1)", the background being painted
with operator SOURCE. -/
def listed_loop_body (i : Nat) : List Call :=
  [ Call.cairo_push_group,
    Call.cairo_set_operator CAIRO_OPERATOR_SOURCE,
    Call.cairo_set_source_rgba 0.8 0 0 0.1,
    Call.cairo_paint,
    Call.cairo_set_operator CAIRO_OPERATOR_OVER,
    Call.cairo_set_source_rgba 0 1 0 0.5,
    Call.cairo_rectangle (((i : Int) * 10 + 10 : Int) : ℚ) (((i : Int) * 10 + 10 : Int) : ℚ) 50 50,
    Call.cairo_fill,
    Call.cairo_pop_group_to_source,
    Call.cairo_paint,
    Call.xcb_flush,
    Call.sleep 1 ]

/-- The calls of `main` after a successful setup as the specification lists
them: every iteration is the sequence of `listed_loop_body`. -/
def listed_trace (srv : XServer) (g : Globals) : List Call :=
  (setup_xcb srv).trace ++ first_draw g ++ (List.range 11).flatMap listed_loop_body ++ cleanup

/-! ## The draw loop -/

theorem draw_loop_from (n i : Nat) (hn : n = 11 - i) :
    draw_loop i = (List.range' i n).flatMap loop_body := by
  induction n generalizing i with
  | zero =>
    have hi : ¬ i < 11 := by omega
    rw [draw_loop, if_neg hi]
    simp
  | succ n ih =>
    have hi : i < 11 := by omega
    rw [draw_loop, if_pos hi, ih (i + 1) (by omega)]
    simp [List.range'_succ]

/-- The loop runs its body for `i = 0, 1, ..., 10` and stops. -/
theorem draw_loop_eq : draw_loop 0 = (List.range 11).flatMap loop_body := by
  rw [draw_loop_from 11 0 rfl, List.range_eq_range']

/-! ## The setup part of a trace -/

theorem wm_hints_requests_is_hint (names : List String) :
    ∀ k ∈ wm_hints_requests names, k.is_hint = true := by
  induction names with
  | nil => simp [wm_hints_requests]
  | cons name rest ih =>
    intro k hk
    simp only [wm_hints_requests, List.mem_cons] at hk
    rcases hk with rfl | hk
    · rfl
    · exact ih k hk

theorem wm_hints_replies_is_hint (srv : XServer) (names : List String) :
    ∀ (i : Nat) (xatoms : List Nat),
      ∀ k ∈ (wm_hints_replies srv names i xatoms).trace, k.is_hint = true := by
  induction names with
  | nil => intro i xatoms k hk; simp [wm_hints_replies] at hk
  | cons name rest ih =>
    intro i xatoms k hk
    unfold wm_hints_replies at hk
    cases hr : srv.atom_reply i with
    | none =>
      simp only [hr, List.mem_cons, List.mem_singleton, List.not_mem_nil, or_false] at hk
      rcases hk with rfl | rfl <;> rfl
    | some atom =>
      simp only [hr, List.mem_cons] at hk
      rcases hk with rfl | rfl | hk
      · rfl
      · rfl
      · exact ih _ _ k hk

theorem wm_hints_is_hint (srv : XServer) (xwindow : Nat) :
    ∀ k ∈ (wm_hints srv xwindow).trace, k.is_hint = true := by
  intro k hk
  unfold wm_hints at hk
  cases hr : (wm_hints_replies srv atoms 0 []).result with
  | error e =>
    simp only [hr, List.mem_append] at hk
    rcases hk with hk | hk
    · exact wm_hints_requests_is_hint _ k hk
    · exact wm_hints_replies_is_hint srv _ _ _ k hk
  | ok xatoms =>
    simp only [hr, List.mem_append] at hk
    rcases hk with (hk | hk) | hk
    · exact wm_hints_requests_is_hint _ k hk
    · exact wm_hints_replies_is_hint srv _ _ _ k hk
    · simp only [wm_hints_properties, List.mem_cons, List.mem_singleton, List.not_mem_nil,
        or_false] at hk
      rcases hk with rfl | rfl | rfl | rfl | rfl | rfl <;> rfl

theorem created_windows_append (a b : List Call) :
    created_windows (a ++ b) = created_windows a ++ created_windows b := by
  induction a with
  | nil => rfl
  | cons k ks ih => cases k <;> simp [created_windows, ih]

theorem created_windows_of_hints (l : List Call) (hl : ∀ k ∈ l, k.is_hint = true) :
    created_windows l = [] := by
  induction l with
  | nil => rfl
  | cons k ks ih =>
    have hk := hl k (List.mem_cons_self _ _)
    have hks := ih (fun k1 h1 => hl k1 (List.mem_cons_of_mem _ h1))
    cases k <;> simp_all [created_windows, Call.is_hint]

theorem created_surfaces_append (a b : List Call) :
    created_surfaces (a ++ b) = created_surfaces a ++ created_surfaces b := by
  induction a with
  | nil => rfl
  | cons k ks ih => cases k <;> simp [created_surfaces, ih]

theorem created_surfaces_of_setup (l : List Call) (hl : ∀ k ∈ l, k.is_setup = true) :
    created_surfaces l = [] := by
  induction l with
  | nil => rfl
  | cons k ks ih =>
    have hk := hl k (List.mem_cons_self _ _)
    have hks := ih (fun k1 h1 => hl k1 (List.mem_cons_of_mem _ h1))
    cases k <;> simp_all [created_surfaces, Call.is_setup]

theorem after_disconnect_append (a b : List Call) (ha : ∀ k ∈ a, k.is_disconnect = false) :
    after_disconnect (a ++ b) = after_disconnect b := by
  induction a with
  | nil => rfl
  | cons k ks ih =>
    have hk := ha k (List.mem_cons_self _ _)
    have hks := ih (fun k1 h1 => ha k1 (List.mem_cons_of_mem _ h1))
    cases k <;> simp_all [after_disconnect, Call.is_disconnect]

theorem is_hint_is_setup (k : Call) (hk : k.is_hint = true) : k.is_setup = true := by
  cases k <;> simp_all [Call.is_hint, Call.is_setup]

theorem is_hint_not_disconnect (k : Call) (hk : k.is_hint = true) : k.is_disconnect = false := by
  cases k <;> simp_all [Call.is_hint, Call.is_disconnect]

theorem is_setup_not_sleep (k : Call) (hk : k.is_setup = true) : k.is_sleep = false := by
  cases k <;> simp_all [Call.is_setup, Call.is_sleep]

theorem is_setup_not_cairo (k : Call) (hk : k.is_setup = true) : k.is_cairo = false := by
  cases k <;> simp_all [Call.is_setup, Call.is_cairo]

/-- Every call of `setup_xcb` is a setup call: none is a cairo call, a sleep or
a flush. -/
theorem setup_xcb_is_setup (srv : XServer) :
    ∀ k ∈ (setup_xcb srv).trace, k.is_setup = true := by
  intro k hk
  unfold setup_xcb at hk
  split at hk
  · simp only [List.mem_cons, List.mem_singleton, List.not_mem_nil, or_false] at hk
    rcases hk with rfl | rfl | rfl | rfl <;> rfl
  · split at hk
    · simp only [List.mem_cons, List.mem_singleton, List.not_mem_nil, or_false] at hk
      rcases hk with rfl | rfl | rfl <;> rfl
    · split at hk
      · simp only [List.mem_cons, List.mem_singleton, List.not_mem_nil, or_false] at hk
        rcases hk with rfl | rfl | rfl <;> rfl
      · split at hk
        · simp only [List.mem_cons, List.mem_singleton, List.not_mem_nil, or_false] at hk
          rcases hk with rfl | rfl | rfl | rfl | rfl | rfl <;> rfl
        · simp only [List.mem_append, List.mem_cons, List.mem_singleton, List.not_mem_nil,
            or_false] at hk
          rcases hk with ((rfl | rfl | rfl | rfl | rfl | rfl) | (rfl | rfl)) | hk
          all_goals first
            | rfl
            | exact is_hint_is_setup k (wm_hints_is_hint srv _ k hk)

/-- What a successful `setup_xcb` has seen and done. -/
theorem setup_xcb_ok (srv : XServer) (g : Globals) (hok : (setup_xcb srv).result = .ok g) :
    srv.has_error = 0 ∧
    get_xscreen srv.roots srv.default_screen = some g.xscreen ∧
    get_xvisual g.xscreen = some g.xvisual ∧
    g.xwindow = srv.new_id ∧
    (wm_hints srv g.xwindow).result = .ok () ∧
    ∃ geo, srv.geometry = some geo ∧
      (setup_xcb srv).trace =
        [Call.xcb_connect, Call.xcb_connection_has_error, Call.xcb_generate_id,
         create_window_call g.xscreen g.xwindow,
         Call.xcb_get_geometry g.xwindow, Call.xcb_get_geometry_reply,
         Call.printf_depth geo.depth, Call.free] ++ (wm_hints srv g.xwindow).trace := by
  unfold setup_xcb at hok ⊢
  split at hok
  · simp at hok
  · rename_i herr
    split at hok
    · simp at hok
    · rename_i xscreen hscreen
      split at hok
      · simp at hok
      · rename_i xvisual hvisual
        split at hok
        · simp at hok
        · rename_i geo hgeo
          cases hh : (wm_hints srv srv.new_id).result with
          | error e => simp [hh] at hok
          | ok u =>
            simp only [hh, Except.ok.injEq] at hok
            subst hok
            have h0 : srv.has_error = 0 := by simpa using herr
            simp [h0, hscreen, hvisual, hgeo, hh]

theorem setup_xcb_server_ok : (setup_xcb server_ok).result = .ok globals_ok := by
  rfl

/-! ## The sequence of calls (C1) -/

theorem filter_flatMap_body (f : Call → Bool) (body : Nat → List Call) (l : List Nat)
    (out : List Call) (hf : ∀ i, (body i).filter f = out) :
    (l.flatMap body).filter f = l.flatMap (fun _ => out) := by
  induction l with
  | nil => rfl
  | cons i l ih => simp [List.flatMap_cons, hf, ih]

theorem filter_of_setup (f : Call → Bool) (l : List Call) (hl : ∀ k ∈ l, k.is_setup = true)
    (hf : ∀ k, k.is_setup = true → f k = false) : l.filter f = [] := by
  rw [List.filter_eq_nil_iff]
  intro k hk
  simp [hf k (hl k hk)]

theorem main_of_setup_ok (srv : XServer) (g : Globals) (hok : (setup_xcb srv).result = .ok g) :
    main srv =
      ⟨(setup_xcb srv).trace ++ first_draw g ++ draw_loop 0 ++ cleanup, Exit.returned 0⟩ := by
  simp [main, hok]

theorem main_of_setup_error (srv : XServer) (e : Exit)
    (herr : (setup_xcb srv).result = .error e) :
    main srv = ⟨(setup_xcb srv).trace, e⟩ := by
  simp [main, herr]

/-- What a filter keeps of the calls of a successful `main`, when it keeps no
setup call and the same calls of every iteration. -/
theorem filter_main_trace (f : Call → Bool) (srv : XServer) (g : Globals)
    (hok : (setup_xcb srv).result = .ok g)
    (hsetup : ∀ k, k.is_setup = true → f k = false)
    (out : List Call) (hf : ∀ i, (loop_body i).filter f = out) :
    (main srv).trace.filter f =
      (first_draw g).filter f ++ (List.range 11).flatMap (fun _ => out) ++ cleanup.filter f := by
  rw [main_of_setup_ok srv g hok, draw_loop_eq]
  simp only [List.filter_append]
  rw [filter_of_setup f _ (setup_xcb_is_setup srv) hsetup,
    filter_flatMap_body f loop_body _ out hf]
  rfl

theorem is_setup_not_flush (k : Call) (hk : k.is_setup = true) : k.is_flush = false := by
  cases k <;> simp_all [Call.is_setup, Call.is_flush]

theorem is_setup_not_write_to_png (k : Call) (hk : k.is_setup = true) :
    k.is_write_to_png = false := by
  cases k <;> simp_all [Call.is_setup, Call.is_write_to_png]

/-- The calls of `listed_loop_body` are among those of the loop body, in the
same order. -/
theorem listed_sublist_loop_body (i : Nat) : (listed_loop_body i).Sublist (loop_body i) := by
  simp only [listed_loop_body, loop_body, group_start, drawing, group_end, List.cons_append,
    List.nil_append]
  repeat (first
    | exact List.Sublist.refl _
    | apply List.Sublist.cons₂
    | apply List.Sublist.cons)

/-- C1, as the code has it: after a successful setup the calls of `main` are
one fixed sequence. It is the surface and context creation, the mapping of the
window, one clearing of the background and a flush; then for `i = 0, ..., 10`
the same twenty calls (push_group, flush, dump of the target to a PNG file,
background painted with SOURCE, flush, second dump, the square, pop to source,
paint, flush, `sleep(1)`); then the destruction of surface and context and
`xcb_disconnect`, and `main` returns 0.  There are eleven sleeps, of one second
each, and nothing is called after `xcb_disconnect`.  The calls push_group,
background paint, fill of the square, pop to source, paint, flush, `sleep(1)`
are among the twenty of an iteration, in this order. -/
theorem main_trace_on_success (srv : XServer) (g : Globals)
    (hok : (setup_xcb srv).result = .ok g) :
    (main srv).exit = Exit.returned 0 ∧
    (main srv).trace =
      (setup_xcb srv).trace ++
      [ Call.cairo_xcb_surface_create g.xwindow g.xvisual.visual_id 200 200,
        Call.cairo_create,
        Call.xcb_map_window g.xwindow,
        Call.cairo_set_source_rgba 0.8 0 0 0.1,
        Call.cairo_paint,
        Call.xcb_flush ] ++
      (List.range 11).flatMap (fun i =>
        [ Call.cairo_push_group,
          Call.xcb_flush,
          Call.snprintf Buffer.file1 100 "cimg_%02d_before.png" i,
          Call.cairo_get_target,
          Call.cairo_surface_write_to_png Buffer.file1,
          Call.cairo_set_operator CAIRO_OPERATOR_SOURCE,
          Call.cairo_set_source_rgba 0.8 0 0 0.1,
          Call.cairo_paint,
          Call.cairo_set_operator CAIRO_OPERATOR_OVER,
          Call.xcb_flush,
          Call.snprintf Buffer.file2 100 "cimg_%02d_later.png" i,
          Call.cairo_get_target,
          Call.cairo_surface_write_to_png Buffer.file2,
          Call.cairo_set_source_rgba 0 1 0 0.5,
          Call.cairo_rectangle (10 * i + 10) (10 * i + 10) 50 50,
          Call.cairo_fill,
          Call.cairo_pop_group_to_source,
          Call.cairo_paint,
          Call.xcb_flush,
          Call.sleep 1 ]) ++
      [ Call.cairo_surface_destroy, Call.cairo_destroy, Call.xcb_disconnect ] ∧
    (main srv).trace.filter Call.is_sleep = List.replicate 11 (Call.sleep 1) ∧
    after_disconnect (main srv).trace = [] ∧
    (∀ i, (listed_loop_body i).Sublist (loop_body i)) := by
  have hmain := main_of_setup_ok srv g hok
  obtain ⟨_, _, _, _, _, geo, _, htrace⟩ := setup_xcb_ok srv g hok
  have hsetup := setup_xcb_is_setup srv
  refine ⟨by rw [hmain], ?_, ?_, ?_, listed_sublist_loop_body⟩
  · rw [hmain, draw_loop_eq]
    have hbody : loop_body = fun i : Nat =>
        [ Call.cairo_push_group,
          Call.xcb_flush,
          Call.snprintf Buffer.file1 100 "cimg_%02d_before.png" i,
          Call.cairo_get_target,
          Call.cairo_surface_write_to_png Buffer.file1,
          Call.cairo_set_operator CAIRO_OPERATOR_SOURCE,
          Call.cairo_set_source_rgba 0.8 0 0 0.1,
          Call.cairo_paint,
          Call.cairo_set_operator CAIRO_OPERATOR_OVER,
          Call.xcb_flush,
          Call.snprintf Buffer.file2 100 "cimg_%02d_later.png" i,
          Call.cairo_get_target,
          Call.cairo_surface_write_to_png Buffer.file2,
          Call.cairo_set_source_rgba 0 1 0 0.5,
          Call.cairo_rectangle (10 * i + 10) (10 * i + 10) 50 50,
          Call.cairo_fill,
          Call.cairo_pop_group_to_source,
          Call.cairo_paint,
          Call.xcb_flush,
          Call.sleep 1 ] := by
      funext i
      simp [loop_body, group_start, drawing, group_end, mul_comm]
    rw [hbody]
    simp [first_draw, cairo_clear_background, cleanup, w, h]
  · rw [hmain, draw_loop_eq]
    simp only [List.filter_append]
    rw [filter_of_setup Call.is_sleep _ hsetup is_setup_not_sleep]
    rw [filter_flatMap_body Call.is_sleep loop_body _ [Call.sleep 1] (by intro i; rfl)]
    rfl
  · rw [hmain, htrace]
    have hnd : ∀ k ∈ [Call.xcb_connect, Call.xcb_connection_has_error, Call.xcb_generate_id,
         create_window_call g.xscreen g.xwindow,
         Call.xcb_get_geometry g.xwindow, Call.xcb_get_geometry_reply,
         Call.printf_depth geo.depth, Call.free] ++ (wm_hints srv g.xwindow).trace ++
         first_draw g ++ draw_loop 0, k.is_disconnect = false := by
      intro k hk
      simp only [List.mem_append] at hk
      rcases hk with ((hk | hk) | hk) | hk
      · simp only [List.mem_cons, List.mem_singleton, List.not_mem_nil, or_false] at hk
        rcases hk with rfl | rfl | rfl | rfl | rfl | rfl | rfl | rfl <;> rfl
      · exact is_hint_not_disconnect k (wm_hints_is_hint srv _ k hk)
      · simp only [first_draw, cairo_clear_background, List.mem_append, List.mem_cons,
          List.mem_singleton, List.not_mem_nil, or_false] at hk
        rcases hk with ((rfl | rfl | rfl) | (rfl | rfl)) | rfl <;> rfl
      · rw [draw_loop_eq, List.mem_flatMap] at hk
        obtain ⟨i, _, hk⟩ := hk
        simp only [loop_body, group_start, drawing, group_end, List.mem_append, List.mem_cons,
          List.mem_singleton, List.not_mem_nil, or_false] at hk
        rcases hk with (hk | hk) | hk
        · rcases hk with rfl | rfl | rfl | rfl | rfl | rfl | rfl | rfl | rfl | rfl | rfl | rfl | rfl <;> rfl
        · rcases hk with rfl | rfl | rfl <;> rfl
        · rcases hk with rfl | rfl | rfl | rfl <;> rfl
    rw [after_disconnect_append _ _ hnd]
    rfl

/-- On `server_ok` the setup succeeds, `main` returns 0 after eleven sleeps of
one second, and nothing is called after `xcb_disconnect`. -/
theorem main_trace_on_success_witness :
    (setup_xcb server_ok).result = .ok globals_ok ∧
    (main server_ok).exit = Exit.returned 0 ∧
    (main server_ok).trace.filter Call.is_sleep = List.replicate 11 (Call.sleep 1) ∧
    after_disconnect (main server_ok).trace = [] :=
  have key := main_trace_on_success server_ok globals_ok setup_xcb_server_ok
  ⟨setup_xcb_server_ok, key.1, key.2.2.1, key.2.2.2.1⟩

/-- C1 as listed fails on `server_ok`: the calls of `main` are not the listed
sequence. Every iteration also dumps the target to a PNG file twice and
flushes the connection three times, so the run makes 22 calls of
`cairo_surface_write_to_png`, where the listed sequence has none, and 34 calls
of `xcb_flush`, where the listed sequence has 12. -/
theorem main_trace_not_as_listed :
    (main server_ok).trace ≠ listed_trace server_ok globals_ok ∧
    ((main server_ok).trace.filter Call.is_write_to_png).length = 22 ∧
    ((listed_trace server_ok globals_ok).filter Call.is_write_to_png).length = 0 ∧
    ((main server_ok).trace.filter Call.is_flush).length = 34 ∧
    ((listed_trace server_ok globals_ok).filter Call.is_flush).length = 12 := by
  have hpng := filter_main_trace Call.is_write_to_png server_ok globals_ok setup_xcb_server_ok
    is_setup_not_write_to_png
    [Call.cairo_surface_write_to_png Buffer.file1, Call.cairo_surface_write_to_png Buffer.file2]
    (by intro i; rfl)
  have hflush := filter_main_trace Call.is_flush server_ok globals_ok setup_xcb_server_ok
    is_setup_not_flush [Call.xcb_flush, Call.xcb_flush, Call.xcb_flush] (by intro i; rfl)
  have hlpng : (listed_trace server_ok globals_ok).filter Call.is_write_to_png = [] := by
    unfold listed_trace
    simp only [List.filter_append]
    rw [filter_of_setup _ _ (setup_xcb_is_setup server_ok) is_setup_not_write_to_png,
      filter_flatMap_body Call.is_write_to_png listed_loop_body _ [] (by intro i; rfl)]
    rfl
  have hlflush : (listed_trace server_ok globals_ok).filter Call.is_flush =
      Call.xcb_flush :: (List.range 11).flatMap (fun _ => [Call.xcb_flush]) := by
    unfold listed_trace
    simp only [List.filter_append]
    rw [filter_of_setup _ _ (setup_xcb_is_setup server_ok) is_setup_not_flush,
      filter_flatMap_body Call.is_flush listed_loop_body _ [Call.xcb_flush] (by intro i; rfl)]
    rfl
  have h22 : ((main server_ok).trace.filter Call.is_write_to_png).length = 22 := by
    rw [hpng]; rfl
  refine ⟨?_, h22, ?_, ?_, ?_⟩
  · intro heq
    rw [heq, hlpng] at h22
    simp at h22
  · rw [hlpng]; rfl
  · rw [hflush]; rfl
  · rw [hlflush]; rfl

/-! ## Setup errors (C2) -/

/-- C2 fails where the geometry request gets no reply: `setup_xcb` reads
`geo->depth` without a test of `geo`, so on `server_without_geometry` the run
ends in the dereference of a null pointer after `xcb_get_geometry_reply`, and
`errx` is never called. -/
theorem missing_geometry_reply_is_dereferenced :
    (main server_without_geometry).exit = Exit.null_dereference ∧
    (main server_without_geometry).trace =
      [ Call.xcb_connect, Call.xcb_connection_has_error, Call.xcb_generate_id,
        Call.xcb_create_window 0 4194305 300 200 200 200 200 1 1 33 2049 [0, 32772],
        Call.xcb_get_geometry 4194305, Call.xcb_get_geometry_reply ] ∧
    (main server_without_geometry).trace.filter Call.is_errx = [] := by
  refine ⟨rfl, rfl, rfl⟩

/-- The reply loop of `wm_hints` either comes to its end or stops at an
`errx(1, ...)`. -/
theorem wm_hints_replies_result (srv : XServer) (names : List String) :
    ∀ (i : Nat) (xatoms : List Nat),
      (∃ out, (wm_hints_replies srv names i xatoms).result = .ok out) ∨
      ((wm_hints_replies srv names i xatoms).result = .error (Exit.exited 1) ∧
        ∃ msg, (wm_hints_replies srv names i xatoms).trace.getLast? = some (Call.errx 1 msg)) := by
  induction names with
  | nil => intro i xatoms; exact Or.inl ⟨xatoms, rfl⟩
  | cons name rest ih =>
    intro i xatoms
    unfold wm_hints_replies
    cases hr : srv.atom_reply i with
    | none => exact Or.inr ⟨rfl, _, rfl⟩
    | some atom =>
      rcases ih (i + 1) (xatoms ++ [atom]) with hok | ⟨herr, msg, hlast⟩
      · exact Or.inl hok
      · refine Or.inr ⟨herr, msg, ?_⟩
        simp only
        cases ht : (wm_hints_replies srv rest (i + 1) (xatoms ++ [atom])).trace with
        | nil => simp [ht] at hlast
        | cons k ks =>
          rw [ht] at hlast
          simpa [List.getLast?_cons_cons] using hlast

theorem getLast_append_of_getLast (a b : List Call) (k : Call)
    (hb : b.getLast? = some k) : (a ++ b).getLast? = some k := by
  simp [List.getLast?_append, hb]

/-- The function `wm_hints` either returns or stops at an `errx(1, ...)`. -/
theorem wm_hints_result (srv : XServer) (xwindow : Nat) :
    (wm_hints srv xwindow).result = .ok () ∨
    ((wm_hints srv xwindow).result = .error (Exit.exited 1) ∧
      ∃ msg, (wm_hints srv xwindow).trace.getLast? = some (Call.errx 1 msg)) := by
  unfold wm_hints
  rcases wm_hints_replies_result srv atoms 0 [] with ⟨out, hok⟩ | ⟨herr, msg, hlast⟩
  · simp [hok]
  · refine Or.inr ?_
    simp only [herr, true_and]
    exact ⟨msg, getLast_append_of_getLast _ _ _ hlast⟩

/-- Every setup error but one ends the program through `errx(1, ...)` before
any cairo call: when `setup_xcb` does not return, `main` makes no cairo call,
and unless the geometry reply is the missing one the last call is an `errx`
with status 1 and the program exits with status 1.  When the connection is in
error, `xcb_disconnect` comes right before the `errx` and no window is
created. -/
theorem setup_errors (srv : XServer) (e : Exit) (herr : (setup_xcb srv).result = .error e) :
    (main srv).exit = e ∧
    (∀ k ∈ (main srv).trace, k.is_cairo = false) ∧
    ((e = Exit.exited 1 ∧ ∃ msg, (main srv).trace.getLast? = some (Call.errx 1 msg)) ∨
     (e = Exit.null_dereference ∧ srv.geometry = none ∧
       (main srv).trace.filter Call.is_errx = [])) ∧
    (srv.has_error ≠ 0 →
      (main srv).trace =
        [ Call.xcb_connect, Call.xcb_connection_has_error, Call.xcb_disconnect,
          Call.errx 1 "Failed to establish connection to X" ]) := by
  have hmain := main_of_setup_error srv e herr
  refine ⟨by rw [hmain], ?_, ?_, ?_⟩
  · intro k hk
    rw [hmain] at hk
    exact is_setup_not_cairo k (setup_xcb_is_setup srv k hk)
  · rw [hmain]
    simp only
    by_cases h0 : srv.has_error = 0
    · cases hs : get_xscreen srv.roots srv.default_screen with
      | none =>
        simp only [setup_xcb, h0, hs, ne_eq, not_true_eq_false, if_false,
          Except.error.injEq] at herr ⊢
        subst herr
        exact Or.inl ⟨rfl, _, rfl⟩
      | some xscreen =>
        cases hv : get_xvisual xscreen with
        | none =>
          simp only [setup_xcb, h0, hs, hv, ne_eq, not_true_eq_false, if_false,
            Except.error.injEq] at herr ⊢
          subst herr
          exact Or.inl ⟨rfl, _, rfl⟩
        | some xvisual =>
          cases hg : srv.geometry with
          | none =>
            simp only [setup_xcb, h0, hs, hv, hg, ne_eq, not_true_eq_false, if_false,
              Except.error.injEq] at herr ⊢
            subst herr
            exact Or.inr ⟨rfl, trivial, rfl⟩
          | some geo =>
            rcases wm_hints_result srv srv.new_id with hok | ⟨hfail, msg, hlast⟩
            · simp [setup_xcb, h0, hs, hv, hg, hok] at herr
            · simp only [setup_xcb, h0, hs, hv, hg, hfail, ne_eq, not_true_eq_false, if_false,
                Except.error.injEq] at herr ⊢
              subst herr
              exact Or.inl ⟨rfl, msg, getLast_append_of_getLast _ _ _ hlast⟩
    · simp only [setup_xcb, ne_eq, h0, not_false_eq_true, if_true, Except.error.injEq] at herr ⊢
      subst herr
      exact Or.inl ⟨rfl, _, rfl⟩
  · intro hne
    rw [hmain]
    simp [setup_xcb, hne]

/-- On `server_in_error` the program disconnects and ends through `errx`. -/
theorem setup_errors_witness :
    (main server_in_error).exit = Exit.exited 1 ∧
    (main server_in_error).trace =
      [ Call.xcb_connect, Call.xcb_connection_has_error, Call.xcb_disconnect,
        Call.errx 1 "Failed to establish connection to X" ] :=
  have key := setup_errors server_in_error (Exit.exited 1) rfl
  ⟨key.1, key.2.2.2 (by decide)⟩

/-! ## The window and the surface (C3) -/

theorem created_windows_draw_loop : created_windows (draw_loop 0) = [] := by
  rw [draw_loop_eq]
  generalize List.range 11 = l
  induction l with
  | nil => rfl
  | cons i l ih =>
    rw [List.flatMap_cons, created_windows_append, ih]
    rfl

theorem created_surfaces_draw_loop : created_surfaces (draw_loop 0) = [] := by
  rw [draw_loop_eq]
  generalize List.range 11 = l
  induction l with
  | nil => rfl
  | cons i l ih =>
    rw [List.flatMap_cons, created_surfaces_append, ih]
    rfl

/-- C3: a run whose setup succeeds creates one window, at position (200, 200),
200 wide and 200 high with a border of 1; these are `x`, `y`, `w`, `h`, and
the one cairo surface it creates has the same size `w` by `h`. -/
theorem created_window_matches_surface (srv : XServer) (g : Globals)
    (hok : (setup_xcb srv).result = .ok g) :
    created_windows (main srv).trace = [(200, 200, 200, 200, 1)] ∧
    created_windows (main srv).trace = [(x, y, w, h, 1)] ∧
    created_surfaces (main srv).trace = [(w, h)] ∧
    created_surfaces (main srv).trace = [(200, 200)] := by
  obtain ⟨_, _, _, _, _, geo, _, htrace⟩ := setup_xcb_ok srv g hok
  have hwin : created_windows (main srv).trace = [(200, 200, 200, 200, 1)] := by
    rw [main_of_setup_ok srv g hok, htrace]
    simp only [created_windows_append, created_windows_draw_loop,
      created_windows_of_hints _ (wm_hints_is_hint srv g.xwindow)]
    rfl
  have hsurf : created_surfaces (main srv).trace = [(200, 200)] := by
    rw [main_of_setup_ok srv g hok]
    simp only [created_surfaces_append, created_surfaces_draw_loop,
      created_surfaces_of_setup _ (setup_xcb_is_setup srv)]
    rfl
  exact ⟨hwin, hwin, hsurf, hsurf⟩

/-- On `server_ok` the one window created is 200 by 200 at (200, 200), border
1, as is the surface. -/
theorem created_window_matches_surface_witness :
    (setup_xcb server_ok).result = .ok globals_ok ∧
    created_windows (main server_ok).trace = [(200, 200, 200, 200, 1)] ∧
    created_surfaces (main server_ok).trace = [(200, 200)] :=
  have key := created_window_matches_surface server_ok globals_ok setup_xcb_server_ok
  ⟨setup_xcb_server_ok, key.1, key.2.2.2⟩

/-! ## The square (C4) -/

/-- C4: in iteration `i` (0 to 10) one rectangle is filled, 50 by 50 with its
corner at (10 i + 10, 10 i + 10), the same offset in x and in y; the corner of
the next iteration is this one moved by (10, 10); and the rectangle lies inside
the `w` by `h` surface. -/
theorem square_on_diagonal (i : Nat) (hi : i < 11) (p : Pixel) (c : Context)
    (hpath : c.path = []) :
    filled p c (loop_body i) = [[⟨i * 10 + 10, i * 10 + 10, 50, 50⟩]] ∧
    filled p c (loop_body (i + 1)) = [[⟨(i * 10 + 10) + 10, (i * 10 + 10) + 10, 50, 50⟩]] ∧
    (0 : ℚ) ≤ i * 10 + 10 ∧
    (i * 10 + 10 + 50 : ℚ) ≤ w ∧ (i * 10 + 10 + 50 : ℚ) ≤ h ∧
    i * 10 + 10 + 50 ≤ 200 := by
  obtain ⟨op, source, path, groups, window⟩ := c
  simp only at hpath
  subst hpath
  refine ⟨?_, ?_, ?_, ?_, ?_, ?_⟩
  · by_cases hcov : (⟨(i : ℚ) * 10 + 10, (i : ℚ) * 10 + 10, 50, 50⟩ : Rectangle).covers p = true
    · simp [filled, annotate, step, loop_body, group_start, drawing, group_end, Call.is_fill,
        Context.render, hcov]
    · simp [filled, annotate, step, loop_body, group_start, drawing, group_end, Call.is_fill,
        Context.render, hcov]
  · by_cases hcov : (⟨((i : ℚ) + 1) * 10 + 10, ((i : ℚ) + 1) * 10 + 10, 50, 50⟩ : Rectangle).covers p = true
    · simp [filled, annotate, step, loop_body, group_start, drawing, group_end, Call.is_fill,
        Context.render, hcov]
      ring
    · simp [filled, annotate, step, loop_body, group_start, drawing, group_end, Call.is_fill,
        Context.render, hcov]
      ring
  · positivity
  · have : (i : ℚ) ≤ 10 := by exact_mod_cast Nat.lt_succ_iff.mp hi
    simp only [w]; push_cast; linarith
  · have : (i : ℚ) ≤ 10 := by exact_mod_cast Nat.lt_succ_iff.mp hi
    simp only [h]; push_cast; linarith
  · omega

/-- The squares of iterations 3 and 4. -/
theorem square_on_diagonal_witness :
    3 < 11 ∧
    filled ⟨0, 0⟩ (cairo_create_context 0) (loop_body 3) =
      [[⟨(3 : Nat) * 10 + 10, (3 : Nat) * 10 + 10, 50, 50⟩]] ∧
    filled ⟨0, 0⟩ (cairo_create_context 0) (loop_body (3 + 1)) =
      [[⟨((3 : Nat) * 10 + 10) + 10, ((3 : Nat) * 10 + 10) + 10, 50, 50⟩]] ∧
    3 * 10 + 10 + 50 ≤ 200 :=
  have key := square_on_diagonal 3 (by decide) ⟨0, 0⟩ (cairo_create_context 0) rfl
  ⟨by decide, key.1, key.2.1, key.2.2.2.2.2⟩

/-! ## The effect of one iteration on the context -/

theorem run_append (p : Pixel) (a b : List Call) :
    ∀ c : Context, run p c (a ++ b) = (run p c a).bind (fun c1 => run p c1 b) := by
  induction a with
  | nil => intro c; rfl
  | cons k ks ih =>
    intro c
    simp only [List.cons_append, run]
    cases step p c k with
    | none => rfl
    | some c1 => exact ih c1

/-- One iteration, entered with operator OVER, no group and an empty path,
leaves the context so, with the popped group as source, painted over the
window. -/
theorem run_loop_body (p : Pixel) (i : Nat) (source : Source) (window : ℚ) :
    run p ⟨CAIRO_OPERATOR_OVER, source, [], [], window⟩ (loop_body i) =
      some ⟨CAIRO_OPERATOR_OVER, Source.group (group_alpha p i), [], [],
        group_alpha p i + window * (1 - group_alpha p i)⟩ := by
  by_cases hcov : (⟨(i : ℚ) * 10 + 10, (i : ℚ) * 10 + 10, 50, 50⟩ : Rectangle).covers p = true
  · simp [run, step, loop_body, group_start, drawing, group_end, Context.render, blend,
      Source.alpha, group_alpha, hcov]
  · simp [run, step, loop_body, group_start, drawing, group_end, Context.render, blend,
      Source.alpha, group_alpha, hcov]

/-- The calls of `main` before the loop leave the context with operator OVER,
no group and an empty path, the background painted over the window. -/
theorem run_first_draw (p : Pixel) (g : Globals) (c : Context) :
    run p c (first_draw g) =
      some ⟨CAIRO_OPERATOR_OVER, Source.rgba 0.8 0 0 0.1, [], [],
        0.1 + c.window * (1 - 0.1)⟩ := by
  simp [run, step, first_draw, cairo_clear_background, cairo_create_context, Context.render,
    blend, Source.alpha]

/-- Every iteration of the loop is entered with operator OVER, no group and an
empty path. -/
theorem run_iterations (p : Pixel) (g : Globals) (initial : ℚ) (n : Nat) :
    ∃ source window,
      run p (cairo_create_context initial) (first_draw g ++ (List.range n).flatMap loop_body) =
        some ⟨CAIRO_OPERATOR_OVER, source, [], [], window⟩ := by
  induction n with
  | zero =>
    refine ⟨Source.rgba 0.8 0 0 0.1, 0.1 + initial * (1 - 0.1), ?_⟩
    simp only [List.range_zero, List.flatMap_nil, List.append_nil]
    exact run_first_draw p g _
  | succ n ih =>
    obtain ⟨source, window, hrun⟩ := ih
    refine ⟨Source.group (group_alpha p n),
      group_alpha p n + window * (1 - group_alpha p n), ?_⟩
    rw [List.range_succ, List.flatMap_append, ← List.append_assoc, run_append, hrun]
    simp only [List.flatMap_cons, List.flatMap_nil, List.append_nil, Option.bind]
    exact run_loop_body p n source window

/-! ## The colours (C5) -/

/-- C5: the colours are the same in every render. The initial clear sets and
paints (0.8, 0, 0, 0.1); every iteration `i` sets exactly two colours, the
same ones for every `i`: (0.8, 0, 0, 0.1), which is the source of its
background paint, and (0, 1, 0, 0.5), which is the source of its fill. The
last paint of the iteration has the popped group as its source. -/
theorem colours_are_fixed (i : Nat) (p : Pixel) (c : Context) (hpath : c.path = []) :
    source_colours cairo_clear_background = [(0.8, 0, 0, 0.1)] ∧
    render_sources p c cairo_clear_background =
      [(Call.cairo_paint, Source.rgba 0.8 0 0 0.1)] ∧
    source_colours (loop_body i) = [(0.8, 0, 0, 0.1), (0, 1, 0, 0.5)] ∧
    render_sources p c (loop_body i) =
      [ (Call.cairo_paint, Source.rgba 0.8 0 0 0.1),
        (Call.cairo_fill, Source.rgba 0 1 0 0.5),
        (Call.cairo_paint, Source.group (group_alpha p i)) ] := by
  obtain ⟨op, source, path, groups, window⟩ := c
  simp only at hpath
  subst hpath
  refine ⟨rfl, ?_, rfl, ?_⟩
  · simp [render_sources, annotate, step, cairo_clear_background, Call.renders]
  · by_cases hcov : (⟨(i : ℚ) * 10 + 10, (i : ℚ) * 10 + 10, 50, 50⟩ : Rectangle).covers p = true
    · simp [render_sources, annotate, step, loop_body, group_start, drawing, group_end,
        Call.renders, Context.render, blend, Source.alpha, group_alpha, hcov]
    · simp [render_sources, annotate, step, loop_body, group_start, drawing, group_end,
        Call.renders, Context.render, blend, Source.alpha, group_alpha, hcov]

/-- The colours of iteration 7, at the pixel (0, 0). -/
theorem colours_are_fixed_witness :
    source_colours (loop_body 7) = [(0.8, 0, 0, 0.1), (0, 1, 0, 0.5)] ∧
    render_sources ⟨0, 0⟩ (cairo_create_context 0) (loop_body 7) =
      [ (Call.cairo_paint, Source.rgba 0.8 0 0 0.1),
        (Call.cairo_fill, Source.rgba 0 1 0 0.5),
        (Call.cairo_paint, Source.group (group_alpha ⟨0, 0⟩ 7)) ] :=
  have key := colours_are_fixed 7 ⟨0, 0⟩ (cairo_create_context 0) rfl
  ⟨key.2.2.1, key.2.2.2⟩

/-! ## Operator and group depth (C7) -/

/-- C7: an iteration entered with operator OVER and no group ends with
operator OVER and no group. The group depth is 1 from the call after
`cairo_push_group` up to `cairo_pop_group_to_source` and 0 elsewhere; of the
three rendering calls, the background paint is made with SOURCE at depth 1,
the fill with OVER at depth 1 and the last paint with OVER at depth 0. In the
run of `main`, each of the eleven iterations is entered, and the last one
left, in that state. -/
theorem iteration_keeps_context (i : Nat) (p : Pixel) (c : Context)
    (hop : c.op = CAIRO_OPERATOR_OVER) (hgroups : c.groups = []) (hpath : c.path = []) :
    (∃ c1, run p c (loop_body i) = some c1 ∧ c1.op = CAIRO_OPERATOR_OVER ∧ c1.depth = 0) ∧
    profile p c (loop_body i) =
      [ (Call.cairo_push_group, CAIRO_OPERATOR_OVER, 0),
        (Call.xcb_flush, CAIRO_OPERATOR_OVER, 1),
        (Call.snprintf Buffer.file1 100 "cimg_%02d_before.png" i, CAIRO_OPERATOR_OVER, 1),
        (Call.cairo_get_target, CAIRO_OPERATOR_OVER, 1),
        (Call.cairo_surface_write_to_png Buffer.file1, CAIRO_OPERATOR_OVER, 1),
        (Call.cairo_set_operator CAIRO_OPERATOR_SOURCE, CAIRO_OPERATOR_OVER, 1),
        (Call.cairo_set_source_rgba 0.8 0 0 0.1, CAIRO_OPERATOR_SOURCE, 1),
        (Call.cairo_paint, CAIRO_OPERATOR_SOURCE, 1),
        (Call.cairo_set_operator CAIRO_OPERATOR_OVER, CAIRO_OPERATOR_SOURCE, 1),
        (Call.xcb_flush, CAIRO_OPERATOR_OVER, 1),
        (Call.snprintf Buffer.file2 100 "cimg_%02d_later.png" i, CAIRO_OPERATOR_OVER, 1),
        (Call.cairo_get_target, CAIRO_OPERATOR_OVER, 1),
        (Call.cairo_surface_write_to_png Buffer.file2, CAIRO_OPERATOR_OVER, 1),
        (Call.cairo_set_source_rgba 0 1 0 0.5, CAIRO_OPERATOR_OVER, 1),
        (Call.cairo_rectangle (i * 10 + 10) (i * 10 + 10) 50 50, CAIRO_OPERATOR_OVER, 1),
        (Call.cairo_fill, CAIRO_OPERATOR_OVER, 1),
        (Call.cairo_pop_group_to_source, CAIRO_OPERATOR_OVER, 1),
        (Call.cairo_paint, CAIRO_OPERATOR_OVER, 0),
        (Call.xcb_flush, CAIRO_OPERATOR_OVER, 0),
        (Call.sleep 1, CAIRO_OPERATOR_OVER, 0) ] ∧
    render_operators p c (loop_body i) =
      [ (Call.cairo_paint, CAIRO_OPERATOR_SOURCE, 1),
        (Call.cairo_fill, CAIRO_OPERATOR_OVER, 1),
        (Call.cairo_paint, CAIRO_OPERATOR_OVER, 0) ] ∧
    (∀ (g : Globals) (initial : ℚ) (n : Nat), n ≤ 11 →
      ∃ c0, run p (cairo_create_context initial)
          (first_draw g ++ (List.range n).flatMap loop_body) = some c0 ∧
        c0.op = CAIRO_OPERATOR_OVER ∧ c0.depth = 0) := by
  obtain ⟨op, source, path, groups, window⟩ := c
  simp only at hop hgroups hpath
  subst hop hgroups hpath
  refine ⟨⟨_, run_loop_body p i source window, rfl, rfl⟩, ?_, ?_, ?_⟩
  · by_cases hcov : (⟨(i : ℚ) * 10 + 10, (i : ℚ) * 10 + 10, 50, 50⟩ : Rectangle).covers p = true
    · simp [profile, annotate, step, loop_body, group_start, drawing, group_end,
        Context.render, Context.depth, hcov]
    · simp [profile, annotate, step, loop_body, group_start, drawing, group_end,
        Context.render, Context.depth, hcov]
  · by_cases hcov : (⟨(i : ℚ) * 10 + 10, (i : ℚ) * 10 + 10, 50, 50⟩ : Rectangle).covers p = true
    · simp [render_operators, annotate, step, loop_body, group_start, drawing, group_end,
        Call.renders, Context.render, Context.depth, hcov]
    · simp [render_operators, annotate, step, loop_body, group_start, drawing, group_end,
        Call.renders, Context.render, Context.depth, hcov]
  · intro g initial n _
    obtain ⟨source1, window1, hrun⟩ := run_iterations p g initial n
    exact ⟨_, hrun, rfl, rfl⟩

/-- The context around iteration 4 of the run on `server_ok`, at the pixel
(100, 100) of a window that starts transparent. -/
theorem iteration_keeps_context_witness :
    (∃ c1, run ⟨100, 100⟩ (cairo_create_context 0) (loop_body 4) = some c1 ∧
      c1.op = CAIRO_OPERATOR_OVER ∧ c1.depth = 0) ∧
    render_operators ⟨100, 100⟩ (cairo_create_context 0) (loop_body 4) =
      [ (Call.cairo_paint, CAIRO_OPERATOR_SOURCE, 1),
        (Call.cairo_fill, CAIRO_OPERATOR_OVER, 1),
        (Call.cairo_paint, CAIRO_OPERATOR_OVER, 0) ] ∧
    (∃ c0, run ⟨100, 100⟩ (cairo_create_context 0)
        (first_draw globals_ok ++ (List.range 4).flatMap loop_body) = some c0 ∧
      c0.op = CAIRO_OPERATOR_OVER ∧ c0.depth = 0) :=
  have key := iteration_keeps_context 4 ⟨100, 100⟩ (cairo_create_context 0) rfl rfl rfl
  ⟨key.1, key.2.2.1, key.2.2.2 globals_ok 0 4 (by decide)⟩

/-! ## The alpha of the background (C6) -/

theorem group_alpha_outside (p : Pixel) (i : Nat)
    (hout : (⟨i * 10 + 10, i * 10 + 10, 50, 50⟩ : Rectangle).covers p = false) :
    group_alpha p i = 0.1 := by
  simp [group_alpha, hout]

/-- The alpha of the window at a pixel outside all the squares stays in
`[0.1, 1)` through the run. -/
theorem window_alpha_bounds (p : Pixel) (g : Globals) (initial : ℚ)
    (hout : ∀ i : Nat, i < 11 →
      (⟨i * 10 + 10, i * 10 + 10, 50, 50⟩ : Rectangle).covers p = false)
    (h0 : 0 ≤ initial) (h1 : initial < 1) (n : Nat) (hn : n ≤ 11) :
    ∃ source a,
      run p (cairo_create_context initial) (first_draw g ++ (List.range n).flatMap loop_body) =
        some ⟨CAIRO_OPERATOR_OVER, source, [], [], a⟩ ∧ 0.1 ≤ a ∧ a < 1 := by
  induction n with
  | zero =>
    refine ⟨Source.rgba 0.8 0 0 0.1, 0.1 + initial * (1 - 0.1), ?_, ?_, ?_⟩
    · simp only [List.range_zero, List.flatMap_nil, List.append_nil]
      exact run_first_draw p g _
    · norm_num; linarith
    · norm_num; linarith
  | succ n ih =>
    obtain ⟨source, a, hrun, ha0, ha1⟩ := ih (by omega)
    refine ⟨Source.group (group_alpha p n), group_alpha p n + a * (1 - group_alpha p n),
      ?_, ?_, ?_⟩
    · rw [List.range_succ, List.flatMap_append, ← List.append_assoc, run_append, hrun]
      simp only [List.flatMap_cons, List.flatMap_nil, List.append_nil, Option.bind]
      exact run_loop_body p n source a
    · rw [group_alpha_outside p n (hout n (by omega))]
      norm_num at ha0 ⊢; linarith
    · rw [group_alpha_outside p n (hout n (by omega))]
      norm_num at ha0 ⊢; linarith

/-- C6: each render adds to the alpha of the one before. At a pixel outside the
square of iteration `i`, in a context with operator OVER and no group, when the
window has alpha `a` with `0 ≤ a < 1`: the group popped as source has alpha
exactly 0.1, and the paint that ends the iteration leaves the window with alpha
`0.1 + 0.9 a`, which is more than `a`, and is not 0.1 when `a` is positive.  In
the run of `main`, at a pixel outside all the squares of a window starting with
an alpha in `[0, 1)`, each of the eleven iterations finds an alpha `a`, leaves
`0.1 + 0.9 a`, which is more than `a`, and never leaves 0.1. -/
theorem background_alpha_accumulates (p : Pixel) :
    (∀ (i : Nat) (c : Context), c.op = CAIRO_OPERATOR_OVER → c.groups = [] → c.path = [] →
      (⟨i * 10 + 10, i * 10 + 10, 50, 50⟩ : Rectangle).covers p = false →
      0 ≤ c.window → c.window < 1 →
      ∃ c1 c2,
        run p c (group_start i ++ drawing i ++ [Call.cairo_pop_group_to_source]) = some c1 ∧
        c1.source = Source.group 0.1 ∧ c1.window = c.window ∧
        run p c (loop_body i) = some c2 ∧
        c2.window = 0.1 + 0.9 * c.window ∧ c.window < c2.window ∧
        (0 < c.window → c2.window ≠ 0.1)) ∧
    (∀ (g : Globals) (initial : ℚ),
      (∀ i : Nat, i < 11 →
        (⟨i * 10 + 10, i * 10 + 10, 50, 50⟩ : Rectangle).covers p = false) →
      0 ≤ initial → initial < 1 →
      ∀ n : Nat, n < 11 →
        ∃ a b, window_alpha p g initial n = some a ∧ window_alpha p g initial (n + 1) = some b ∧
          0 < a ∧ b = 0.1 + 0.9 * a ∧ a < b ∧ b ≠ 0.1) := by
  constructor
  · intro i c hop hgroups hpath hout h0 h1
    obtain ⟨op, source, path, groups, window⟩ := c
    simp only at hop hgroups hpath h0 h1
    subst hop hgroups hpath
    have hout1 : (⟨(i : ℚ) * 10 + 10, (i : ℚ) * 10 + 10, 50, 50⟩ : Rectangle).covers p = false :=
      hout
    refine ⟨⟨CAIRO_OPERATOR_OVER, Source.group 0.1, [], [], window⟩, _, ?_, rfl, rfl,
      run_loop_body p i source window, ?_, ?_, ?_⟩
    · simp [run, step, group_start, drawing, Context.render, blend, Source.alpha, hout1]
    · simp only [group_alpha_outside p i hout]
      ring
    · simp only [group_alpha_outside p i hout]
      norm_num; linarith
    · intro hpos
      simp only [group_alpha_outside p i hout]
      intro heq
      have : window * (1 - 0.1) = 0 := by linarith
      norm_num at this
      linarith
  · intro g initial hout h0 h1 n hn
    obtain ⟨source, a, hrun, ha0, ha1⟩ := window_alpha_bounds p g initial hout h0 h1 n (by omega)
    have hnext : run p (cairo_create_context initial)
        (first_draw g ++ (List.range (n + 1)).flatMap loop_body) =
        some ⟨CAIRO_OPERATOR_OVER, Source.group (group_alpha p n), [], [],
          group_alpha p n + a * (1 - group_alpha p n)⟩ := by
      rw [List.range_succ, List.flatMap_append, ← List.append_assoc, run_append, hrun]
      simp only [List.flatMap_cons, List.flatMap_nil, List.append_nil, Option.bind]
      exact run_loop_body p n source a
    rw [group_alpha_outside p n (hout n hn)] at hnext
    refine ⟨a, 0.1 + a * (1 - 0.1), ?_, ?_, ?_, ?_, ?_, ?_⟩
    · simp [window_alpha, hrun]
    · simp [window_alpha, hnext]
    · norm_num at ha0; linarith
    · ring
    · norm_num at ha0 ⊢; linarith
    · norm_num at ha0 ⊢; linarith

/-- The pixel (0, 0) is outside every square. -/
theorem origin_outside (i : Nat) :
    (⟨i * 10 + 10, i * 10 + 10, 50, 50⟩ : Rectangle).covers ⟨0, 0⟩ = false := by
  have hi : (0 : ℚ) ≤ i := Nat.cast_nonneg i
  simp only [Rectangle.covers, decide_eq_false_iff_not, not_and]
  intro h0
  norm_num at h0
  linarith

/-- The alpha at the pixel (0, 0): iteration 3 entered with alpha 0.5, and the
sixth iteration of the run on a window that starts transparent. -/
theorem background_alpha_accumulates_witness :
    (∃ c1 c2,
      run ⟨0, 0⟩ (cairo_create_context 0.5)
        (group_start 3 ++ drawing 3 ++ [Call.cairo_pop_group_to_source]) = some c1 ∧
      c1.source = Source.group 0.1 ∧ c1.window = (cairo_create_context 0.5).window ∧
      run ⟨0, 0⟩ (cairo_create_context 0.5) (loop_body 3) = some c2 ∧
      c2.window = 0.1 + 0.9 * (cairo_create_context 0.5).window ∧
      (cairo_create_context 0.5).window < c2.window ∧
      (0 < (cairo_create_context 0.5).window → c2.window ≠ 0.1)) ∧
    (∃ a b, window_alpha ⟨0, 0⟩ globals_ok 0 5 = some a ∧
      window_alpha ⟨0, 0⟩ globals_ok 0 (5 + 1) = some b ∧
      0 < a ∧ b = 0.1 + 0.9 * a ∧ a < b ∧ b ≠ 0.1) :=
  ⟨(background_alpha_accumulates ⟨0, 0⟩).1 3 (cairo_create_context 0.5) rfl rfl rfl
      (origin_outside 3) (by norm_num [cairo_create_context])
      (by norm_num [cairo_create_context]),
   (background_alpha_accumulates ⟨0, 0⟩).2 globals_ok 0 (fun i _ => origin_outside i)
      (le_refl 0) (by norm_num) 5 (by decide)⟩

end CairoXcbAlpha
